import Mathlib

/-!
# Verification of the AI engine router of the Gen-AI Carrier Platform

A shallow embedding of `backend/app/ai_engines/engine_router.py` together
with the pure fragments of `gemini_engine.py` and `ollama_engine.py`
(answer evaluation short-circuit, final-report aggregation, aptitude
answer matching), and proofs about the provider-selection policy, the
execute-with-fallback semantics, forced override, preference reset and
usage statistics.

Python values that flow through the fallback validity guard are modelled
by the inductive type `PyVal`; Python exceptions by `PyErr`; a fallible
call by `Except PyErr PyVal`.  Network interactions of the provider
engines (HTTP calls and the parsing of their responses) are not pure code
and enter the model as explicit parameters of the embedded functions.
-/

set_option autoImplicit false

namespace CarrierPlatform

/-- Python runtime values as far as the router's result handling observes
them: `None`, booleans, integers, strings, lists and dicts. -/
inductive PyVal where
  | none
  | bool (b : Bool)
  | int (n : Int)
  | str (s : String)
  | list (xs : List PyVal)
  | dict (entries : List (String × PyVal))

/-- Python truthiness (`bool(v)`): `None`, `False`, `0`, `""`, `[]` and
`{}` are falsy, everything else is truthy. -/
def truthy : PyVal → Bool
  | .none => false
  | .bool b => b
  | .int n => n != 0
  | .str s => s != ""
  | .list xs => !xs.isEmpty
  | .dict entries => !entries.isEmpty

/-- Python `str.strip()` with no argument: remove leading and trailing
whitespace. -/
def pyStrip (s : String) : String :=
  String.mk
    (((s.data.dropWhile Char.isWhitespace).reverse.dropWhile
      Char.isWhitespace).reverse)

/-- Python `str.lower()`: lowercase every character. -/
def pyLower (s : String) : String :=
  String.mk (s.data.map Char.toLower)

/-- Accumulator recursion behind `pySplitWhitespace`. -/
def pyWordsAux : List Char → List Char → List String
  | [], acc => if acc.isEmpty then [] else [String.mk acc.reverse]
  | c :: cs, acc =>
      if c.isWhitespace then
        if acc.isEmpty then pyWordsAux cs []
        else String.mk acc.reverse :: pyWordsAux cs []
      else pyWordsAux cs (c :: acc)

/-- Python `str.split()` with no argument: split on runs of whitespace,
discarding empty pieces. -/
def pySplitWhitespace (s : String) : List String :=
  pyWordsAux s.data []

/-- The check `isinstance(result, (str, dict, list))` from
engine_router.py line 92. -/
def isStrDictOrList : PyVal → Bool
  | .str _ => true
  | .dict _ => true
  | .list _ => true
  | _ => false

/-- Python `and`: returns the left operand when it is falsy, else the right. -/
def pyAnd (a b : PyVal) : PyVal := if truthy a then b else a

/-- Python `or`: returns the left operand when it is truthy, else the right. -/
def pyOr (a b : PyVal) : PyVal := if truthy a then a else b

/-- The result-validity guard of `AIEngineRouter._execute_with_fallback`
(engine_router.py line 92), exactly as written in the source:
`result and (not isinstance(result, (str, dict, list)) or result)`,
evaluated for truth by the surrounding `if`. -/
def resultValid (result : PyVal) : Bool :=
  truthy (pyAnd result (pyOr (.bool (!isStrDictOrList result)) result))

/-- Python exceptions the embedded code can raise. -/
inductive PyErr where
  | exception (msg : String)
  | unboundLocalError (name : String)
  | zeroDivisionError
deriving DecidableEq

/-- Model of `AIEngineRouter.stats` (engine_router.py lines 40-45). -/
structure Stats where
  ollama_requests : Nat
  gemini_requests : Nat
  fallback_count : Nat
  last_engine_used : Option String
deriving DecidableEq

/-- The two engines held by the router. -/
inductive Engine where
  | ollama
  | gemini
deriving DecidableEq

/-- The mutable state of an `AIEngineRouter` instance, together with the
availability flags of its two engines (`OllamaEngine.available`, probed at
construction, and `GeminiEngine.api_key` presence). -/
structure RouterState where
  ollama_available : Bool
  gemini_api_key : Bool
  prefer_ollama : Bool
  fallback_enabled : Bool
  stats : Stats
deriving DecidableEq

/-- Model of `AIEngineRouter._select_engine` (engine_router.py lines
49-74): returns the chosen engine, its name, and the updated router
state. -/
def select_engine (s : RouterState) : Engine × String × RouterState :=
  if s.prefer_ollama && s.ollama_available then
    (.ollama, "ollama",
      { s with stats := { s.stats with
          ollama_requests := s.stats.ollama_requests + 1,
          last_engine_used := some "ollama" } })
  else if s.fallback_enabled then
    let stats1 := { s.stats with
        gemini_requests := s.stats.gemini_requests + 1,
        last_engine_used := some "gemini" }
    let stats2 :=
      if s.prefer_ollama then
        { stats1 with fallback_count := stats1.fallback_count + 1 }
      else stats1
    (.gemini, "gemini", { s with stats := stats2 })
  else
    (.ollama, "ollama",
      { s with stats := { s.stats with
          ollama_requests := s.stats.ollama_requests + 1,
          last_engine_used := some "ollama" } })

/-- Outcome of `_execute_with_fallback`: the propagated result or error,
the updated stats, and how many times the fallback function was invoked. -/
structure ExecOutcome where
  result : Except PyErr PyVal
  stats : Stats
  fallback_calls : Nat

/-- Body of the `try` block of `_execute_with_fallback` (engine_router.py
lines 89-95): the primary result when the guard accepts it, and the
raised error otherwise — either the primary call's own error, or
`Exception("Empty or invalid result from primary engine")` when the
guard rejects the returned value. -/
def primary_attempt (primary_func : Except PyErr PyVal) : Except PyErr PyVal :=
  match primary_func with
  | .ok result =>
      if resultValid result then .ok result
      else .error (.exception "Empty or invalid result from primary engine")
  | .error e => .error e

/-- A primary outcome is rejected (reaches the `except` clause of
`_execute_with_fallback`) when the call raised or the guard refused the
result. -/
def rejected (primary_func : Except PyErr PyVal) : Bool :=
  match primary_attempt primary_func with
  | .ok _ => false
  | .error _ => true

/-- Model of `AIEngineRouter._execute_with_fallback` (engine_router.py
lines 76-107).  `primary_func` is the outcome of the primary engine call,
`fallback_func` the outcome of the fallback call when a fallback function
was supplied (`none` models passing `None`).  Any raise of the primary
attempt is caught, and when `self.fallback_enabled and fallback_func`
holds, `fallback_count` is incremented and the fallback is invoked, its
error (if any) propagating; otherwise the original error is re-raised. -/
def execute_with_fallback (fallback_enabled : Bool) (stats : Stats)
    (primary_func : Except PyErr PyVal)
    (fallback_func : Option (Except PyErr PyVal)) : ExecOutcome :=
  match primary_attempt primary_func with
  | .ok r => { result := .ok r, stats := stats, fallback_calls := 0 }
  | .error e =>
      match fallback_enabled, fallback_func with
      | true, some fb =>
          { result := fb,
            stats := { stats with fallback_count := stats.fallback_count + 1 },
            fallback_calls := 1 }
      | _, _ => { result := .error e, stats := stats, fallback_calls := 0 }

/-- The operation-dispatch pattern shared by every router operation
(e.g. `AIEngineRouter.evaluate_answer`, engine_router.py lines 169-183):
select an engine, then either run `_execute_with_fallback` with the ollama
implementation as primary and the gemini one as fallback (when the
selected name is `"ollama"` and fallback is enabled), or call the selected
engine directly. -/
def run_operation (s : RouterState)
    (ollama_impl gemini_impl : Except PyErr PyVal) :
    Except PyErr PyVal × RouterState :=
  let sel := select_engine s
  let s1 := sel.2.2
  if sel.2.1 == "ollama" && s1.fallback_enabled then
    let out := execute_with_fallback s1.fallback_enabled s1.stats
      ollama_impl (some gemini_impl)
    (out.result, { s1 with stats := out.stats })
  else
    (match sel.1 with
     | .ollama => ollama_impl
     | .gemini => gemini_impl, s1)

/-- Model of `AIEngineRouter.force_engine` (engine_router.py lines
255-283); `engine_name.lower()` is modelled by `pyLower`. -/
def force_engine (s : RouterState) (engine_name : String) : Bool × RouterState :=
  if pyLower engine_name = "ollama" then
    if s.ollama_available then (true, { s with prefer_ollama := true })
    else (false, s)
  else if pyLower engine_name = "gemini" then
    if s.gemini_api_key then (true, { s with prefer_ollama := false })
    else (false, s)
  else (false, s)

/-- The module-level configuration read once at process start
(engine_router.py lines 19-20: `PREFER_OLLAMA`, `FALLBACK_TO_GEMINI`). -/
structure StartupConfig where
  PREFER_OLLAMA : Bool
  FALLBACK_TO_GEMINI : Bool
deriving DecidableEq

/-- Model of `AIEngineRouter.reset_preferences` (engine_router.py lines
285-289). -/
def reset_preferences (cfg : StartupConfig) (s : RouterState) : RouterState :=
  { s with prefer_ollama := cfg.PREFER_OLLAMA,
           fallback_enabled := cfg.FALLBACK_TO_GEMINI }

/-- A sequence of `force_engine` calls applied left to right. -/
def apply_forces (s : RouterState) : List String → RouterState
  | [] => s
  | name :: rest => apply_forces (force_engine s name).2 rest

/-- The three score fields of an answer evaluation. -/
structure EvalScores where
  technical : Nat
  communication : Nat
  relevance : Nat
deriving DecidableEq

/-- Model of `GeminiEngine.evaluate_answer` (gemini_engine.py lines 327-385) and
`OllamaEngine.evaluate_answer` (ollama_engine.py lines 353-414), whose
pure control flow is identical.  `answer` is `Option String` so that a
missing (`None`) answer is representable; `provider_parsed` abstracts the
network call plus JSON parsing: `some scores` when the provider response
parsed, `none` when `json.loads` failed (the code then falls back to the
length heuristic `min(85, max(40, len(answer.split()) * 2))`).  The second
component counts provider invocations.

The short-answer branch (`if not answer or len(answer.strip()) < 10`)
builds its response dict with the f-string
`f"... related to this {role} question."`, but the local variable `role`
is first assigned only *after* this branch (gemini_engine.py line 351,
ollama_engine.py line 368); since `role` is assigned later in the same
function body it is a local name throughout, so evaluating the f-string
raises `UnboundLocalError` and the branch never returns its dict. -/
def evaluate_answer (answer : Option String)
    (provider_parsed : Option EvalScores) : Except PyErr EvalScores × Nat :=
  match answer with
  | Option.none => (.error (.unboundLocalError "role"), 0)
  | some a =>
      if a == "" || (pyStrip a).length < 10 then
        (.error (.unboundLocalError "role"), 0)
      else
        match provider_parsed with
        | some scores => (.ok scores, 1)
        | Option.none =>
            let score := min 85 (max 40 ((pySplitWhitespace a).length * 2))
            (.ok { technical := score, communication := score,
                   relevance := score }, 1)

/-- The final report record returned by `generate_final_report`. -/
structure FinalReport where
  overall_summary : String
  technical_score : Int
  communication_score : Int
  relevance_score : Int
  recommendations : List String
deriving DecidableEq

/-- Python `/` on numbers: raises `ZeroDivisionError` when the divisor is
zero, otherwise true division. -/
def pyDiv (a b : ℚ) : Except PyErr ℚ :=
  if b = 0 then .error .zeroDivisionError else .ok (a / b)

/-- Model of `GeminiEngine.generate_final_report` (gemini_engine.py lines 387-448)
and `OllamaEngine.generate_final_report` (ollama_engine.py lines 416-477),
whose pure control flow is identical.  An empty evaluations list returns
the fixed "no data" report before any average is computed; otherwise the
three averages are computed with Python `/` over `len(evaluations)` and
handed to the provider interaction (HTTP call, JSON parsing and the
parse-failure fallback report), which is abstracted as the parameter
`provider` applied to the three averages. -/
def generate_final_report (evaluations : List EvalScores)
    (provider : ℚ → ℚ → ℚ → FinalReport) : Except PyErr FinalReport :=
  if evaluations.isEmpty then
    .ok { overall_summary := "No evaluation data available for this session.",
          technical_score := 0,
          communication_score := 0,
          relevance_score := 0,
          recommendations := [] }
  else do
    let n : ℚ := (evaluations.length : ℚ)
    let avg_technical ←
      pyDiv ((evaluations.map (fun e => (e.technical : ℚ))).sum) n
    let avg_communication ←
      pyDiv ((evaluations.map (fun e => (e.communication : ℚ))).sum) n
    let avg_relevance ←
      pyDiv ((evaluations.map (fun e => (e.relevance : ℚ))).sum) n
    .ok (provider avg_technical avg_communication avg_relevance)

/-- The fields of an aptitude question record that
`evaluate_aptitude_answer` reads via `question.get(..., "")`; an absent
key is `Option.none`. -/
structure AptQuestion where
  correct_answer : Option String
  explanation : Option String
deriving DecidableEq

/-- The record returned by `evaluate_aptitude_answer`. -/
structure AptEvalResult where
  correct : Bool
  score : Nat
  correct_answer : String
  explanation : String
  user_answer : String
deriving DecidableEq

/-- Model of `GeminiEngine.evaluate_aptitude_answer` (gemini_engine.py
lines 574-599) and `OllamaEngine.evaluate_aptitude_answer`
(ollama_engine.py lines 608-626), identical in both engines:
`is_correct = user_answer.strip().lower() == correct_answer.lower()` —
the user answer is stripped and lowercased, the stored correct answer is
only lowercased. -/
def evaluate_aptitude_answer (question : AptQuestion)
    (user_answer : String) : AptEvalResult :=
  let correct_answer := question.correct_answer.getD ""
  let explanation := question.explanation.getD ""
  let is_correct := pyLower (pyStrip user_answer) == pyLower correct_answer
  let score := if is_correct then 100 else 0
  { correct := is_correct, score := score, correct_answer := correct_answer,
    explanation := explanation, user_answer := user_answer }

/-! ## Helper lemmas -/

/-- The guard of line 92 is plain Python truthiness of the result. -/
theorem resultValid_eq_truthy (v : PyVal) : resultValid v = truthy v := by
  cases v with
  | none => rfl
  | bool b => cases b <;> rfl
  | int n =>
      simp only [resultValid, pyAnd, pyOr, truthy, isStrDictOrList]
      by_cases h : n = 0 <;> simp [h]
  | str s =>
      simp only [resultValid, pyAnd, pyOr, truthy, isStrDictOrList]
      by_cases h : s = "" <;> simp [h]
  | list xs => cases xs <;> rfl
  | dict entries => cases entries <;> rfl

/-- A `force_engine` call never touches the usage statistics, the
availability flags or the fallback flag. -/
theorem force_engine_frame (s : RouterState) (engine_name : String) :
    (force_engine s engine_name).2.stats = s.stats ∧
    (force_engine s engine_name).2.ollama_available = s.ollama_available ∧
    (force_engine s engine_name).2.gemini_api_key = s.gemini_api_key ∧
    (force_engine s engine_name).2.fallback_enabled = s.fallback_enabled := by
  unfold force_engine
  split
  · split <;> exact ⟨rfl, rfl, rfl, rfl⟩
  · split
    · split <;> exact ⟨rfl, rfl, rfl, rfl⟩
    · exact ⟨rfl, rfl, rfl, rfl⟩

/-- A sequence of `force_engine` calls never touches the usage
statistics or the availability flags. -/
theorem apply_forces_frame (forces : List String) (s : RouterState) :
    (apply_forces s forces).stats = s.stats ∧
    (apply_forces s forces).ollama_available = s.ollama_available ∧
    (apply_forces s forces).gemini_api_key = s.gemini_api_key := by
  induction forces generalizing s with
  | nil => exact ⟨rfl, rfl, rfl⟩
  | cons name rest ih =>
      obtain ⟨h1, h2, h3⟩ := ih (force_engine s name).2
      obtain ⟨g1, g2, g3, _⟩ := force_engine_frame s name
      exact ⟨h1.trans g1, h2.trans g2, h3.trans g3⟩

/-! ## Claims -/

/-- C1: the spec's three-step selection policy does not hold for either
configured primary.  Counterexample: with the configured primary being
gemini (`prefer_ollama = false`), gemini available (`gemini_api_key =
true`) and fallback disabled, step 1 of the policy demands that the
primary gemini be returned with its counter incremented; the code
returns ollama, increments `ollama_requests` and records ollama as last
used, leaving `gemini_requests` untouched. -/
theorem C1_counterexample_gemini_primary_ignored :
    (select_engine ⟨true, true, false, false, ⟨0, 0, 0, Option.none⟩⟩).1
      = Engine.ollama ∧
    (select_engine ⟨true, true, false, false, ⟨0, 0, 0, Option.none⟩⟩).2.2.stats.gemini_requests
      = 0 ∧
    (select_engine ⟨true, true, false, false, ⟨0, 0, 0, Option.none⟩⟩).2.2.stats.ollama_requests
      = 1 ∧
    (select_engine ⟨true, true, false, false, ⟨0, 0, 0, Option.none⟩⟩).2.2.stats.last_engine_used
      = some "ollama" :=
  ⟨rfl, rfl, rfl, rfl⟩

/-- C1 (amended): when the configured primary is ollama
(`prefer_ollama = true`), selection follows the spec's three-step policy
(available primary → ollama with its counter incremented; otherwise with
fallback enabled → gemini with its counter and `fallback_count`
incremented; otherwise ollama anyway).  When the configured primary is
gemini (`prefer_ollama = false`), availability is never consulted: with
fallback enabled the router returns gemini (counter incremented,
`fallback_count` untouched), and with fallback disabled it returns
ollama — not the configured primary.  `last_engine_used` always records
the returned engine, and selection never changes the preference or
availability fields. -/
theorem C1_select_engine_policy (s : RouterState) :
    (s.prefer_ollama = true → s.ollama_available = true →
      (select_engine s).1 = Engine.ollama ∧
      (select_engine s).2.1 = "ollama" ∧
      (select_engine s).2.2.stats.ollama_requests = s.stats.ollama_requests + 1 ∧
      (select_engine s).2.2.stats.gemini_requests = s.stats.gemini_requests ∧
      (select_engine s).2.2.stats.fallback_count = s.stats.fallback_count ∧
      (select_engine s).2.2.stats.last_engine_used = some "ollama") ∧
    (s.prefer_ollama = true → s.ollama_available = false →
     s.fallback_enabled = true →
      (select_engine s).1 = Engine.gemini ∧
      (select_engine s).2.1 = "gemini" ∧
      (select_engine s).2.2.stats.gemini_requests = s.stats.gemini_requests + 1 ∧
      (select_engine s).2.2.stats.ollama_requests = s.stats.ollama_requests ∧
      (select_engine s).2.2.stats.fallback_count = s.stats.fallback_count + 1 ∧
      (select_engine s).2.2.stats.last_engine_used = some "gemini") ∧
    (s.prefer_ollama = true → s.ollama_available = false →
     s.fallback_enabled = false →
      (select_engine s).1 = Engine.ollama ∧
      (select_engine s).2.1 = "ollama" ∧
      (select_engine s).2.2.stats.ollama_requests = s.stats.ollama_requests + 1 ∧
      (select_engine s).2.2.stats.gemini_requests = s.stats.gemini_requests ∧
      (select_engine s).2.2.stats.fallback_count = s.stats.fallback_count ∧
      (select_engine s).2.2.stats.last_engine_used = some "ollama") ∧
    (s.prefer_ollama = false → s.fallback_enabled = true →
      (select_engine s).1 = Engine.gemini ∧
      (select_engine s).2.1 = "gemini" ∧
      (select_engine s).2.2.stats.gemini_requests = s.stats.gemini_requests + 1 ∧
      (select_engine s).2.2.stats.ollama_requests = s.stats.ollama_requests ∧
      (select_engine s).2.2.stats.fallback_count = s.stats.fallback_count ∧
      (select_engine s).2.2.stats.last_engine_used = some "gemini") ∧
    (s.prefer_ollama = false → s.fallback_enabled = false →
      (select_engine s).1 = Engine.ollama ∧
      (select_engine s).2.1 = "ollama" ∧
      (select_engine s).2.2.stats.ollama_requests = s.stats.ollama_requests + 1 ∧
      (select_engine s).2.2.stats.gemini_requests = s.stats.gemini_requests ∧
      (select_engine s).2.2.stats.fallback_count = s.stats.fallback_count ∧
      (select_engine s).2.2.stats.last_engine_used = some "ollama") ∧
    ((select_engine s).2.2.prefer_ollama = s.prefer_ollama ∧
     (select_engine s).2.2.fallback_enabled = s.fallback_enabled ∧
     (select_engine s).2.2.ollama_available = s.ollama_available ∧
     (select_engine s).2.2.gemini_api_key = s.gemini_api_key) := by
  obtain ⟨oa, gk, po, fe, st⟩ := s
  cases po <;> cases oa <;> cases fe <;> simp [select_engine]

/-- Witness for `C1_select_engine_policy` at the fallback branch:
primary ollama unavailable, fallback enabled. -/
theorem C1_select_engine_policy_witness :
    (select_engine ⟨false, true, true, true, ⟨5, 6, 7, Option.none⟩⟩).1
      = Engine.gemini ∧
    (select_engine ⟨false, true, true, true, ⟨5, 6, 7, Option.none⟩⟩).2.1
      = "gemini" ∧
    (select_engine ⟨false, true, true, true, ⟨5, 6, 7, Option.none⟩⟩).2.2.stats.gemini_requests
      = 7 ∧
    (select_engine ⟨false, true, true, true, ⟨5, 6, 7, Option.none⟩⟩).2.2.stats.ollama_requests
      = 5 ∧
    (select_engine ⟨false, true, true, true, ⟨5, 6, 7, Option.none⟩⟩).2.2.stats.fallback_count
      = 8 ∧
    (select_engine ⟨false, true, true, true, ⟨5, 6, 7, Option.none⟩⟩).2.2.stats.last_engine_used
      = some "gemini" :=
  (C1_select_engine_policy ⟨false, true, true, true, ⟨5, 6, 7, Option.none⟩⟩).2.1
    rfl rfl rfl

/-- C2: for every answer that is missing or whose stripped length is
below 10, `evaluate_answer` never reaches a provider (zero provider
invocations) but, contrary to the claim, it does not return the fixed
low-score evaluation: building the short-circuit response dict evaluates
the f-string that reads the local `role`, which is only assigned after
the branch, so the call raises `UnboundLocalError` (gemini_engine.py
lines 342-351, ollama_engine.py lines 359-368). -/
theorem C2_short_answer_unbound_local (pp : Option EvalScores)
    (answer : Option String)
    (h : answer = Option.none ∨
         ∃ a, answer = some a ∧ (pyStrip a).length < 10) :
    evaluate_answer answer pp
      = (Except.error (PyErr.unboundLocalError "role"), 0) := by
  rcases h with h | ⟨a, rfl, ha⟩
  · subst h; rfl
  · simp [evaluate_answer, ha]

/-- Witness for `C2_short_answer_unbound_local` at the empty answer. -/
theorem C2_short_answer_unbound_local_witness :
    evaluate_answer (some "") Option.none
      = (Except.error (PyErr.unboundLocalError "role"), 0) :=
  C2_short_answer_unbound_local Option.none (some "")
    (Or.inr ⟨"", rfl, by decide⟩)

/-- C3: when the primary outcome is rejected (it raised, or the guard
refused its result): with fallback enabled and a fallback function
supplied, the fallback is invoked exactly once, `fallback_count` grows
by exactly one, the other statistics are untouched, and the fallback's
outcome — its result, or its own error, which replaces the original
rejection — is what the caller receives; with fallback disabled, or
with no fallback function, the original error (`primary_attempt`)
propagates unchanged and the statistics are untouched. -/
theorem C3_execute_fallback_semantics (stats : Stats)
    (p fb : Except PyErr PyVal) (fbOpt : Option (Except PyErr PyVal))
    (h : rejected p = true) :
    ((execute_with_fallback true stats p (some fb)).result = fb ∧
     (execute_with_fallback true stats p (some fb)).fallback_calls = 1 ∧
     (execute_with_fallback true stats p (some fb)).stats.fallback_count
       = stats.fallback_count + 1 ∧
     (execute_with_fallback true stats p (some fb)).stats.ollama_requests
       = stats.ollama_requests ∧
     (execute_with_fallback true stats p (some fb)).stats.gemini_requests
       = stats.gemini_requests ∧
     (execute_with_fallback true stats p (some fb)).stats.last_engine_used
       = stats.last_engine_used) ∧
    (∀ fe : PyErr, fb = Except.error fe →
      (execute_with_fallback true stats p (some fb)).result
        = Except.error fe) ∧
    ((execute_with_fallback false stats p fbOpt).result = primary_attempt p ∧
     (execute_with_fallback false stats p fbOpt).stats = stats ∧
     (execute_with_fallback false stats p fbOpt).fallback_calls = 0) ∧
    ((execute_with_fallback true stats p Option.none).result
       = primary_attempt p ∧
     (execute_with_fallback true stats p Option.none).stats = stats ∧
     (execute_with_fallback true stats p Option.none).fallback_calls = 0) := by
  have he : ∃ e, primary_attempt p = Except.error e := by
    unfold rejected at h
    cases hp : primary_attempt p with
    | ok v => rw [hp] at h; simp at h
    | error e => exact ⟨e, rfl⟩
  obtain ⟨e, he⟩ := he
  refine ⟨?_, ?_, ?_, ?_⟩ <;>
    simp [execute_with_fallback, he]

/-- Witness for `C3_execute_fallback_semantics`: a raising primary with a
succeeding fallback. -/
theorem C3_execute_fallback_semantics_witness :
    (execute_with_fallback true ⟨0, 0, 0, Option.none⟩
        (Except.error (PyErr.exception "boom"))
        (some (Except.ok (PyVal.str "fb")))).result
      = Except.ok (PyVal.str "fb") :=
  (C3_execute_fallback_semantics ⟨0, 0, 0, Option.none⟩
    (Except.error (PyErr.exception "boom")) (Except.ok (PyVal.str "fb"))
    Option.none rfl).1.1

/-- C4: the rejection boundary is not exactly \x7braise, empty string,
empty list, empty mapping\x7d.  Counterexample: a primary call that
returns `None` without raising — a value that is not a string, list or
mapping at all — is still rejected and triggers the fallback. -/
theorem C4_counterexample_none_rejected :
    rejected (Except.ok PyVal.none) = true ∧
    isStrDictOrList PyVal.none = false ∧
    (execute_with_fallback true ⟨0, 0, 0, Option.none⟩
        (Except.ok PyVal.none)
        (some (Except.ok (PyVal.str "fallback")))).result
      = Except.ok (PyVal.str "fallback") ∧
    (execute_with_fallback true ⟨0, 0, 0, Option.none⟩
        (Except.ok PyVal.none)
        (some (Except.ok (PyVal.str "fallback")))).fallback_calls = 1 :=
  ⟨rfl, rfl, rfl, rfl⟩

/-- C4 (amended): a primary result is rejected exactly when the call
raises or the returned value is falsy — which for strings, lists and
mappings means empty, but also covers `None`, `False` and zero.  Any
truthy result, in particular a non-empty mapping whose score fields are
all zero, is accepted and returned with the fallback never invoked. -/
theorem C4_rejection_is_falsiness :
    (∀ v : PyVal, rejected (Except.ok v) = !truthy v) ∧
    (∀ e : PyErr, rejected (Except.error e) = true) ∧
    (∀ s : String, truthy (PyVal.str s) = !(s == "")) ∧
    (∀ xs : List PyVal, truthy (PyVal.list xs) = !xs.isEmpty) ∧
    (∀ entries : List (String × PyVal),
      truthy (PyVal.dict entries) = !entries.isEmpty) ∧
    (∀ (stats : Stats) (v : PyVal) (fb : Except PyErr PyVal),
      truthy v = true →
      execute_with_fallback true stats (Except.ok v) (some fb)
        = ⟨Except.ok v, stats, 0⟩) := by
  refine ⟨?_, fun e => rfl, fun s => rfl, fun xs => rfl,
          fun entries => rfl, ?_⟩
  · intro v
    cases hv : truthy v <;>
      simp [rejected, primary_attempt, resultValid_eq_truthy, hv]
  · intro stats v fb hv
    simp [execute_with_fallback, primary_attempt, resultValid_eq_truthy, hv]

/-- Witness for `C4_rejection_is_falsiness`: a non-empty mapping with
all-zero score fields is accepted without invoking the fallback. -/
theorem C4_rejection_is_falsiness_witness :
    execute_with_fallback true ⟨0, 0, 0, Option.none⟩
        (Except.ok (PyVal.dict [("technical", PyVal.int 0),
          ("communication", PyVal.int 0), ("relevance", PyVal.int 0)]))
        (some (Except.ok (PyVal.str "fb")))
      = ⟨Except.ok (PyVal.dict [("technical", PyVal.int 0),
          ("communication", PyVal.int 0), ("relevance", PyVal.int 0)]),
         ⟨0, 0, 0, Option.none⟩, 0⟩ :=
  C4_rejection_is_falsiness.2.2.2.2.2 ⟨0, 0, 0, Option.none⟩
    (PyVal.dict [("technical", PyVal.int 0), ("communication", PyVal.int 0),
      ("relevance", PyVal.int 0)])
    (Except.ok (PyVal.str "fb")) rfl

/-- C5: after both the primary and the fallback raise, `last_used` does
not reflect the fallback attempt.  Counterexample: primary ollama
available and fallback enabled, both implementations raise — the
fallback's error propagates, but `last_engine_used` is `"ollama"` (set
by `_select_engine` before execution and never updated by
`_execute_with_fallback`), not `"gemini"`. -/
theorem C5_counterexample_last_used_is_primary :
    (run_operation ⟨true, true, true, true, ⟨0, 0, 0, Option.none⟩⟩
        (Except.error (PyErr.exception "primary boom"))
        (Except.error (PyErr.exception "fallback boom"))).1
      = Except.error (PyErr.exception "fallback boom") ∧
    (run_operation ⟨true, true, true, true, ⟨0, 0, 0, Option.none⟩⟩
        (Except.error (PyErr.exception "primary boom"))
        (Except.error (PyErr.exception "fallback boom"))).2.stats.last_engine_used
      = some "ollama" ∧
    (some "ollama" : Option String) ≠ some "gemini" :=
  ⟨rfl, rfl, by decide⟩

/-- C5 (amended): when the configured primary ollama is available,
fallback is enabled, and both the primary and the fallback
implementations raise, the operation propagates the fallback's error as
the terminal error, while `last_used` reflects the engine chosen at
selection time — the primary ollama — because `last_engine_used` is
written only by `_select_engine` and never by
`_execute_with_fallback`. -/
theorem C5_double_failure_last_used_primary (s : RouterState)
    (e1 e2 : PyErr) (hpo : s.prefer_ollama = true)
    (hoa : s.ollama_available = true) (hfe : s.fallback_enabled = true) :
    (run_operation s (Except.error e1) (Except.error e2)).1
      = Except.error e2 ∧
    (run_operation s (Except.error e1) (Except.error e2)).2.stats.last_engine_used
      = some "ollama" ∧
    (run_operation s (Except.error e1) (Except.error e2)).2.stats.fallback_count
      = s.stats.fallback_count + 1 ∧
    (run_operation s (Except.error e1) (Except.error e2)).2.stats.ollama_requests
      = s.stats.ollama_requests + 1 ∧
    (run_operation s (Except.error e1) (Except.error e2)).2.stats.gemini_requests
      = s.stats.gemini_requests := by
  obtain ⟨oa, gk, po, fe, st⟩ := s
  simp only at hpo hoa hfe
  subst hpo hoa hfe
  simp [run_operation, select_engine, execute_with_fallback, primary_attempt]

/-- Witness for `C5_double_failure_last_used_primary` at a concrete
state and concrete errors. -/
theorem C5_double_failure_last_used_primary_witness :
    (run_operation ⟨true, false, true, true, ⟨1, 2, 3, some "gemini"⟩⟩
        (Except.error (PyErr.exception "a"))
        (Except.error (PyErr.exception "b"))).1
      = Except.error (PyErr.exception "b") ∧
    (run_operation ⟨true, false, true, true, ⟨1, 2, 3, some "gemini"⟩⟩
        (Except.error (PyErr.exception "a"))
        (Except.error (PyErr.exception "b"))).2.stats.last_engine_used
      = some "ollama" ∧
    (run_operation ⟨true, false, true, true, ⟨1, 2, 3, some "gemini"⟩⟩
        (Except.error (PyErr.exception "a"))
        (Except.error (PyErr.exception "b"))).2.stats.fallback_count = 4 ∧
    (run_operation ⟨true, false, true, true, ⟨1, 2, 3, some "gemini"⟩⟩
        (Except.error (PyErr.exception "a"))
        (Except.error (PyErr.exception "b"))).2.stats.ollama_requests = 2 ∧
    (run_operation ⟨true, false, true, true, ⟨1, 2, 3, some "gemini"⟩⟩
        (Except.error (PyErr.exception "a"))
        (Except.error (PyErr.exception "b"))).2.stats.gemini_requests = 2 :=
  C5_double_failure_last_used_primary
    ⟨true, false, true, true, ⟨1, 2, 3, some "gemini"⟩⟩
    (PyErr.exception "a") (PyErr.exception "b") rfl rfl rfl

/-- C6: `force_engine` succeeds exactly when the lowercased name is
`"ollama"` and the local engine's availability flag is true, or the
lowercased name is `"gemini"` and the cloud credential is present.  On
success it sets the preferred primary accordingly; on every failure —
missing credential, unavailable local engine, or an unrecognised name —
it returns `false` with the whole state, in particular the preference,
untouched.  No call ever changes the statistics, the availability flags
or the fallback flag. -/
theorem C6_force_engine_availability (s : RouterState)
    (engine_name : String) :
    ((force_engine s engine_name).1 = true ↔
       (pyLower engine_name = "ollama" ∧ s.ollama_available = true) ∨
       (pyLower engine_name = "gemini" ∧ s.gemini_api_key = true)) ∧
    ((force_engine s engine_name).1 = false →
       (force_engine s engine_name).2 = s) ∧
    (pyLower engine_name = "ollama" → (force_engine s engine_name).1 = true →
       (force_engine s engine_name).2 = { s with prefer_ollama := true }) ∧
    (pyLower engine_name = "gemini" → (force_engine s engine_name).1 = true →
       (force_engine s engine_name).2 = { s with prefer_ollama := false }) ∧
    ((force_engine s engine_name).2.stats = s.stats ∧
     (force_engine s engine_name).2.ollama_available = s.ollama_available ∧
     (force_engine s engine_name).2.gemini_api_key = s.gemini_api_key ∧
     (force_engine s engine_name).2.fallback_enabled = s.fallback_enabled) := by
  refine ⟨?_, ?_, ?_, ?_, force_engine_frame s engine_name⟩ <;>
  · obtain ⟨oa, gk, po, fe, st⟩ := s
    by_cases h1 : pyLower engine_name = "ollama"
    · cases oa <;> simp [force_engine, h1]
    · by_cases h2 : pyLower engine_name = "gemini"
      · cases gk <;> simp [force_engine, h1, h2]
      · simp [force_engine, h1, h2]

/-- Witness for `C6_force_engine_availability`: forcing gemini with the
credential absent fails and leaves the state untouched; forcing ollama
while it is available succeeds and sets the preference. -/
theorem C6_force_engine_availability_witness :
    (force_engine ⟨true, false, false, true, ⟨0, 0, 0, Option.none⟩⟩
        "gemini").2
      = ⟨true, false, false, true, ⟨0, 0, 0, Option.none⟩⟩ ∧
    (force_engine ⟨true, false, false, true, ⟨0, 0, 0, Option.none⟩⟩
        "ollama").2
      = ⟨true, false, true, true, ⟨0, 0, 0, Option.none⟩⟩ :=
  ⟨(C6_force_engine_availability
      ⟨true, false, false, true, ⟨0, 0, 0, Option.none⟩⟩ "gemini").2.1 rfl,
   (C6_force_engine_availability
      ⟨true, false, false, true, ⟨0, 0, 0, Option.none⟩⟩ "ollama").2.2.1
      rfl rfl⟩

/-- C7: after any sequence of `force_engine` calls, `reset_preferences`
restores `prefer_ollama` and `fallback_enabled` to the startup defaults
(`PREFER_OLLAMA`, `FALLBACK_TO_GEMINI`, read once at process start) and
leaves every field of the usage statistics — both request counters,
`fallback_count` and `last_engine_used` — exactly as they were, along
with the availability flags. -/
theorem C7_reset_restores_defaults (cfg : StartupConfig)
    (s : RouterState) (forces : List String) :
    (reset_preferences cfg (apply_forces s forces)).prefer_ollama
      = cfg.PREFER_OLLAMA ∧
    (reset_preferences cfg (apply_forces s forces)).fallback_enabled
      = cfg.FALLBACK_TO_GEMINI ∧
    (reset_preferences cfg (apply_forces s forces)).stats
      = (apply_forces s forces).stats ∧
    (reset_preferences cfg (apply_forces s forces)).stats = s.stats ∧
    (reset_preferences cfg (apply_forces s forces)).ollama_available
      = s.ollama_available ∧
    (reset_preferences cfg (apply_forces s forces)).gemini_api_key
      = s.gemini_api_key := by
  obtain ⟨h1, h2, h3⟩ := apply_forces_frame forces s
  exact ⟨rfl, rfl, rfl, h1, h2, h3⟩

/-- C8: `generate_final_report` with an empty evaluations list returns
the fixed "no data" report — all numeric scores zero, the explicit
no-data summary, no recommendations — without reaching the averaging
code, and for every evaluations list the function returns a report and
never raises; in particular the divisions by `len(evaluations)` in the
averaging branch can never be divisions by zero, because that branch is
reached only when the list is non-empty. -/
theorem C8_final_report_no_data_safe :
    (∀ provider : ℚ → ℚ → ℚ → FinalReport,
      generate_final_report [] provider
        = Except.ok
            { overall_summary :=
                "No evaluation data available for this session.",
              technical_score := 0,
              communication_score := 0,
              relevance_score := 0,
              recommendations := [] }) ∧
    (∀ (evaluations : List EvalScores)
       (provider : ℚ → ℚ → ℚ → FinalReport),
      ∃ r : FinalReport,
        generate_final_report evaluations provider = Except.ok r) := by
  constructor
  · intro provider
    rfl
  · intro evaluations provider
    cases evaluations with
    | nil => exact ⟨_, rfl⟩
    | cons e rest =>
        have hn : ((rest.length : ℚ) + 1) ≠ 0 := by positivity
        refine ⟨provider
          ((((e :: rest).map fun x => (x.technical : ℚ)).sum)
            / ((e :: rest).length : ℚ))
          ((((e :: rest).map fun x => (x.communication : ℚ)).sum)
            / ((e :: rest).length : ℚ))
          ((((e :: rest).map fun x => (x.relevance : ℚ)).sum)
            / ((e :: rest).length : ℚ)), ?_⟩
        simp [generate_final_report, pyDiv, hn]
        rfl

/-- C9: the aptitude check is not symmetric trimming.  Counterexample: a
question whose stored `correct_answer` carries a leading space — under
case-insensitive comparison after trimming both sides the two answers
are equal, so the claim demands `correct = true` and `score = 100`, but
the code strips only the user answer and therefore returns
`correct = false` and `score = 0`. -/
theorem C9_counterexample_untrimmed_correct_answer :
    pyLower (pyStrip "A) 4 days") = pyLower (pyStrip " A) 4 days") ∧
    (evaluate_aptitude_answer ⟨some " A) 4 days", Option.none⟩
        "A) 4 days").correct = false ∧
    (evaluate_aptitude_answer ⟨some " A) 4 days", Option.none⟩
        "A) 4 days").score = 0 :=
  ⟨by decide, rfl, rfl⟩

/-- C9 (amended): `evaluate_aptitude_answer` returns `correct = true`
exactly when the stripped, lowercased user answer equals the lowercased
— but not stripped — stored `correct_answer` (absent key defaulting to
`""`); the score is 100 on a match and 0 otherwise, never anything in
between.  The claim's concrete scenario holds:
`\x7bcorrect_answer: "A) 4 days"\x7d` with user answer `"a) 4 DAYS"`
yields `correct = true`, `score = 100`. -/
theorem C9_aptitude_exact_match (q : AptQuestion) (ua : String) :
    ((evaluate_aptitude_answer q ua).correct = true ↔
       pyLower (pyStrip ua) = pyLower (q.correct_answer.getD "")) ∧
    ((evaluate_aptitude_answer q ua).score
       = if (evaluate_aptitude_answer q ua).correct then 100 else 0) ∧
    ((evaluate_aptitude_answer q ua).score = 0 ∨
     (evaluate_aptitude_answer q ua).score = 100) ∧
    (evaluate_aptitude_answer q ua).correct_answer
      = q.correct_answer.getD "" ∧
    (evaluate_aptitude_answer q ua).user_answer = ua ∧
    (evaluate_aptitude_answer ⟨some "A) 4 days", Option.none⟩
        "a) 4 DAYS").correct = true ∧
    (evaluate_aptitude_answer ⟨some "A) 4 days", Option.none⟩
        "a) 4 DAYS").score = 100 := by
  refine ⟨?_, rfl, ?_, rfl, rfl, rfl, rfl⟩
  · simp [evaluate_aptitude_answer]
  · by_cases h : pyLower (pyStrip ua) = pyLower (q.correct_answer.getD "") <;>
      simp [evaluate_aptitude_answer, h]

/-- C10: the guard `result and (not isinstance(result, (str, dict,
list)) or result)` of `_execute_with_fallback` is equivalent to plain
truthiness `bool(result)`; consequently every falsy primary result —
`None`, zero and `False` included, not only the empty string, list and
mapping — is rejected and, with fallback enabled and supplied, triggers
exactly one fallback invocation whose outcome the caller receives. -/
theorem C10_guard_is_plain_truthiness :
    (∀ v : PyVal, resultValid v = truthy v) ∧
    (truthy PyVal.none = false ∧ truthy (PyVal.int 0) = false ∧
     truthy (PyVal.bool false) = false) ∧
    (∀ (stats : Stats) (v : PyVal) (fb : Except PyErr PyVal),
      truthy v = false →
      (execute_with_fallback true stats (Except.ok v) (some fb)).result
        = fb ∧
      (execute_with_fallback true stats (Except.ok v) (some fb)).fallback_calls
        = 1) := by
  refine ⟨resultValid_eq_truthy, ⟨rfl, rfl, rfl⟩, ?_⟩
  intro stats v fb hv
  constructor <;>
    simp [execute_with_fallback, primary_attempt, resultValid_eq_truthy, hv]

/-- Witness for `C10_guard_is_plain_truthiness`: a primary call
returning the integer 0 triggers the fallback. -/
theorem C10_guard_is_plain_truthiness_witness :
    (execute_with_fallback true ⟨0, 0, 0, Option.none⟩
        (Except.ok (PyVal.int 0))
        (some (Except.ok (PyVal.str "fb")))).result
      = Except.ok (PyVal.str "fb") :=
  (C10_guard_is_plain_truthiness.2.2 ⟨0, 0, 0, Option.none⟩ (PyVal.int 0)
    (Except.ok (PyVal.str "fb")) rfl).1

end CarrierPlatform
